import Mathlib

/-!
Shallow embedding of `src/main.py` (telegram-gpt-bot), a FastAPI webhook
relay between Telegram and the OpenAI chat-completion API.

The two outbound HTTP effects (the OpenAI completion call and the Telegram
`sendMessage` post) and the admin-endpoint HTTP calls are modelled by an
oracle record `World`; Python exceptions are `Except.error e` where `e` is
the exception's `str(e)` message.  Every function of the source is embedded
as a pure Lean function that, besides its result, returns the list of
outbound calls it made (`List Event`), so that "exactly one completion
call", "exactly one send call", "no outbound call" are provable facts.
-/

/-- Models line 23, `TELEGRAM_API_URL = f"https://api.telegram.org/bot{TELEGRAM_BOT_TOKEN}"`.
`os.getenv` yields `None` when the variable is absent, and a Python f-string
renders `None` as the four characters "None". -/
def TELEGRAM_API_URL (token : Option String) : String :=
  "https://api.telegram.org/bot" ++ (match token with | some t => t | none => "None")

/-- One outbound call made by the program. -/
inductive Event where
  /-- An `openai.ChatCompletion.create` call whose user message is `text`
  (line 65). -/
  | completion (text : String)
  /-- A `client.post(url, json={"chat_id": chat_id, "text": text})` issued by
  `send_telegram_message` (line 49). -/
  | send (url : String) (chat_id : Int) (text : String)
  /-- The `client.post` of the `/set-webhook` admin endpoint (line 148). -/
  | adminPost (url : String) (body : String)
  /-- The `client.get` of the `/webhook-info` admin endpoint (line 164). -/
  | adminGet (url : String)
  deriving DecidableEq, Repr

/-- The external environment: how each outbound call behaves on this run.
`Except.error e` models the call raising a Python exception with message `e`.
For `openai`, `Except.ok c` models a well-formed API response whose
`choices[0].message.content` is `c`; `Except.error` also covers a malformed
response (the `try` of lines 64-76 wraps the field accesses too). -/
structure World where
  openai : String → Except String String
  sendPost : String → Int → String → Except String Unit
  adminPost : String → String → Except String String
  adminGet : String → Except String String

/-- The Russian error string built at line 76:
`f"Ошибка при обращении к OpenAI: {str(e)}"` without the appended message. -/
def openai_error_marker : String := "Ошибка при обращении к OpenAI: "

/-- The welcome text of lines 97-100. -/
def welcome_message : String :=
  "Привет! Я бот, работающий с ChatGPT.\nОтправь мне любое сообщение, и я отвечу с помощью OpenAI."

/-- The "please send a text message" prompt of line 108. -/
def please_send_text_message : String := "Пожалуйста, отправьте текстовое сообщение."

/-- The HTTPException detail of lines 142 and 159. -/
def token_missing_detail : String := "TELEGRAM_BOT_TOKEN не установлен"

/-- Models `get_openai_response` (lines 54-76): makes one completion call;
on success returns `content.strip()`, on any exception returns the inline
error string of line 76 instead of raising. -/
def get_openai_response (w : World) (text : String) : String × List Event :=
  match w.openai text with
  | .ok content => (content.trim, [Event.completion text])
  | .error e => (openai_error_marker ++ e, [Event.completion text])

/-- Models `send_telegram_message` (lines 31-51): posts to
`TELEGRAM_API_URL + "/sendMessage"`; `raise_for_status` (line 50) makes the
result an `Except`.  The post is attempted unconditionally, so the event is
recorded in both outcomes. -/
def send_telegram_message (token : Option String) (w : World) (chat_id : Int)
    (text : String) : Except String Unit × List Event :=
  let url := TELEGRAM_API_URL token ++ "/sendMessage"
  (w.sendPost url chat_id text, [Event.send url chat_id text])

/-- The `"chat"` object of an inbound message: `id` is `none` when the
`"id"` key is absent (so the `["id"]` access would raise a `KeyError`). -/
structure ChatObj where
  id : Option Int
  deriving DecidableEq, Repr

/-- An inbound `"message"` object: `chat` is `none` when the `"chat"` key is
absent; `text` is `none` when the `"text"` key is absent (line 93 uses
`message.get("text", "")`). -/
structure MessageObj where
  chat : Option ChatObj
  text : Option String
  deriving DecidableEq, Repr

/-- A parsed inbound JSON body, as far as the handler inspects it:
either it has no `"message"` key (line 88) or it carries a message object. -/
inductive Body where
  | noMessage
  | withMessage (message : MessageObj)
  deriving DecidableEq, Repr

/-- Models line 92, `chat_id = message["chat"]["id"]`: a missing key raises
`KeyError`, whose `str` is the quoted key name. -/
def lookupChatId (m : MessageObj) : Except String Int :=
  match m.chat with
  | none => .error "\x27chat\x27"
  | some c =>
    match c.id with
    | none => .error "\x27id\x27"
    | some i => .ok i

/-- The JSON body of the handler's HTTP response: `{"ok": true}` or
`{"ok": false, "error": e}`. -/
inductive RespBody where
  | okTrue
  | okFalse (error : String)
  deriving DecidableEq, Repr

/-- An HTTP response of the webhook endpoint: status code plus JSON body. -/
structure HttpResponse where
  status : Nat
  body : RespBody
  deriving DecidableEq, Repr

/-- The `try` block of `webhook` (lines 85-118).  `.ok ()` stands for the
`return JSONResponse({"ok": True})` every non-raising path ends in;
`.error e` stands for an exception with message `e` escaping the block. -/
def webhook_try (token : Option String) (w : World) (data : Body) :
    Except String Unit × List Event :=
  match data with
  | .noMessage => (.ok (), [])
  | .withMessage message =>
    match lookupChatId message with
    | .error e => (.error e, [])
    | .ok chat_id =>
      let text := message.text.getD ""
      if text = "/start" then
        send_telegram_message token w chat_id welcome_message
      else if text = "" then
        send_telegram_message token w chat_id please_send_text_message
      else
        let ai_response := get_openai_response w text
        let sent := send_telegram_message token w chat_id ai_response.1
        (sent.1, ai_response.2 ++ sent.2)

/-- Models the `webhook` endpoint (lines 79-122): the body of the `try`
followed by the top-level `except` of lines 120-122, which turns any escaped
exception into a 500 response with `{"ok": false, "error": str(e)}`. -/
def webhook (token : Option String) (w : World) (data : Body) :
    HttpResponse × List Event :=
  let r := webhook_try token w data
  match r.1 with
  | .ok _ => ({ status := 200, body := RespBody.okTrue }, r.2)
  | .error e => ({ status := 500, body := RespBody.okFalse e }, r.2)

/-- Python truthiness of the token global: `not TELEGRAM_BOT_TOKEN` is true
when the variable is unset (`None`) or the empty string. -/
def token_is_falsy : Option String → Bool
  | none => true
  | some s => s == ""

/-- Outcome of an admin endpoint: an explicit `HTTPException`, a returned
JSON payload (kept opaque as a string), or a propagated exception. -/
inductive AdminOutcome where
  | httpException (status : Nat) (detail : String)
  | result (json : String)
  | raised (e : String)
  deriving DecidableEq, Repr

/-- Models the `set_webhook` endpoint (lines 133-150): fails fast with a 500
`HTTPException` when the token is falsy, otherwise posts to `/setWebhook`. -/
def set_webhook (token : Option String) (w : World) (webhook_url : String) :
    AdminOutcome × List Event :=
  if token_is_falsy token then
    (AdminOutcome.httpException 500 token_missing_detail, [])
  else
    let url := TELEGRAM_API_URL token ++ "/setWebhook"
    match w.adminPost url webhook_url with
    | .ok j => (AdminOutcome.result j, [Event.adminPost url webhook_url])
    | .error e => (AdminOutcome.raised e, [Event.adminPost url webhook_url])

/-- Models the `get_webhook_info` endpoint (lines 153-166). -/
def get_webhook_info (token : Option String) (w : World) :
    AdminOutcome × List Event :=
  if token_is_falsy token then
    (AdminOutcome.httpException 500 token_missing_detail, [])
  else
    let url := TELEGRAM_API_URL token ++ "/getWebhookInfo"
    match w.adminGet url with
    | .ok j => (AdminOutcome.result j, [Event.adminGet url])
    | .error e => (AdminOutcome.raised e, [Event.adminGet url])

/-- Is this event a Telegram send? (For the at-most-one-reply invariant.) -/
def Event.isSend : Event → Bool
  | .send _ _ _ => true
  | _ => false

/-- The token-independent part of an event: erases the URL of a send (the
URL is the only place the bot token reaches on the webhook path), keeping
the chat id and text that are actually delivered. -/
def Event.payload : Event → Event
  | .send _ c s => .send "" c s
  | e => e

/-- The events of `webhook` are those of its `try` block: the top-level
`except` changes only the HTTP response. -/
theorem webhook_events (token : Option String) (w : World) (data : Body) :
    (webhook token w data).2 = (webhook_try token w data).2 := by
  unfold webhook
  cases h : (webhook_try token w data).1 <;> simp [h]

/-- Whatever the API does, `get_openai_response` makes exactly one
completion call. -/
theorem get_openai_response_events (w : World) (t : String) :
    (get_openai_response w t).2 = [Event.completion t] := by
  unfold get_openai_response
  cases w.openai t <;> rfl

/-- A run in which every outbound call succeeds; the completion API returns
" hello " on every input. -/
def demoWorld : World where
  openai := fun _ => Except.ok " hello "
  sendPost := fun _ _ _ => Except.ok ()
  adminPost := fun _ _ => Except.ok "ok"
  adminGet := fun _ => Except.ok "ok"

/-- A run in which the completion API raises with message "boom" on every
input, while sends succeed. -/
def failWorld : World where
  openai := fun _ => Except.error "boom"
  sendPost := fun _ _ _ => Except.ok ()
  adminPost := fun _ _ => Except.ok "ok"
  adminGet := fun _ => Except.ok "ok"

/-- A run in which the Telegram send raises with message "netdown" on every
request, while the completion API succeeds. -/
def sendFailWorld : World where
  openai := fun _ => Except.ok "reply"
  sendPost := fun _ _ _ => Except.error "netdown"
  adminPost := fun _ _ => Except.ok "ok"
  adminGet := fun _ => Except.ok "ok"

/-- C1: for an inbound body carrying a message with non-empty text other
than "/start" (and a chat id, which line 92 presupposes), when the outbound
send does not raise, the handler makes exactly one completion call with that
text, then exactly one send to the message's chat id carrying exactly the
string the completion client returned, and responds 200 with ok-true. -/
theorem C1_normal_text_flow (token : Option String) (w : World) (chat : Int)
    (t : String) (hne : t ≠ "") (hns : t ≠ "/start")
    (hsend : w.sendPost (TELEGRAM_API_URL token ++ "/sendMessage") chat
        (get_openai_response w t).1 = Except.ok ()) :
    webhook token w (Body.withMessage ⟨some ⟨some chat⟩, some t⟩)
      = ({ status := 200, body := RespBody.okTrue },
         [Event.completion t,
          Event.send (TELEGRAM_API_URL token ++ "/sendMessage") chat
            (get_openai_response w t).1]) := by
  simp [webhook, webhook_try, lookupChatId, send_telegram_message, hne, hns, hsend,
    get_openai_response_events]

/-- Witness for C1 at chat 5, text "hi", in a run where every call
succeeds. -/
theorem C1_normal_text_flow_witness :
    webhook none demoWorld (Body.withMessage ⟨some ⟨some 5⟩, some "hi"⟩)
      = ({ status := 200, body := RespBody.okTrue },
         [Event.completion "hi",
          Event.send (TELEGRAM_API_URL none ++ "/sendMessage") 5
            (get_openai_response demoWorld "hi").1]) :=
  C1_normal_text_flow none demoWorld 5 "hi" (by decide) (by decide) rfl

/-- C4: for a message whose text is exactly "/start", the handler sends the
fixed welcome string verbatim to the message's chat id, makes no completion
call, and (when the send does not raise) responds 200 ok-true. -/
theorem C4_start_command (token : Option String) (w : World) (chat : Int)
    (hsend : w.sendPost (TELEGRAM_API_URL token ++ "/sendMessage") chat
        welcome_message = Except.ok ()) :
    webhook token w (Body.withMessage ⟨some ⟨some chat⟩, some "/start"⟩)
      = ({ status := 200, body := RespBody.okTrue },
         [Event.send (TELEGRAM_API_URL token ++ "/sendMessage") chat
            welcome_message]) := by
  simp [webhook, webhook_try, lookupChatId, send_telegram_message, hsend]

/-- Witness for C4 at the spec's example chat id 42. -/
theorem C4_start_command_witness :
    webhook none demoWorld (Body.withMessage ⟨some ⟨some 42⟩, some "/start"⟩)
      = ({ status := 200, body := RespBody.okTrue },
         [Event.send (TELEGRAM_API_URL none ++ "/sendMessage") 42
            welcome_message]) :=
  C4_start_command none demoWorld 42 rfl

/-- C5: for a message whose text key is absent or maps to the empty string,
the handler sends the fixed "please send a text message" prompt verbatim to
the message's chat id, makes no completion call, and (when the send does not
raise) responds 200 ok-true. -/
theorem C5_empty_text (token : Option String) (w : World) (chat : Int)
    (topt : Option String) (h : topt = none ∨ topt = some "")
    (hsend : w.sendPost (TELEGRAM_API_URL token ++ "/sendMessage") chat
        please_send_text_message = Except.ok ()) :
    webhook token w (Body.withMessage ⟨some ⟨some chat⟩, topt⟩)
      = ({ status := 200, body := RespBody.okTrue },
         [Event.send (TELEGRAM_API_URL token ++ "/sendMessage") chat
            please_send_text_message]) := by
  rcases h with rfl | rfl <;>
    simp [webhook, webhook_try, lookupChatId, send_telegram_message, hsend]

/-- Witness for C5 at the spec's example: chat 7 with no text key. -/
theorem C5_empty_text_witness :
    webhook none demoWorld (Body.withMessage ⟨some ⟨some 7⟩, none⟩)
      = ({ status := 200, body := RespBody.okTrue },
         [Event.send (TELEGRAM_API_URL none ++ "/sendMessage") 7
            please_send_text_message]) :=
  C5_empty_text none demoWorld 7 none (Or.inl rfl) rfl

/-- C6: for a body without a "message" field the response is exactly 200
with ok-true and no outbound call of any kind is made. -/
theorem C6_no_message_noop (token : Option String) (w : World) :
    webhook token w Body.noMessage
      = ({ status := 200, body := RespBody.okTrue }, []) := rfl

/-- C2: the completion client never raises: its result is the trimmed
generated text on success, and on any underlying failure it is the fixed
error marker followed by the exception's message — a string beginning with
that marker — so that on the normal-text webhook path the subsequent send
still happens, carrying that string. -/
theorem C2_completion_never_raises (w : World) (t : String) :
    (get_openai_response w t).1
      = (match w.openai t with
         | .ok c => c.trim
         | .error e => openai_error_marker ++ e)
    ∧ (∀ e, w.openai t = Except.error e →
        ∃ rest, (get_openai_response w t).1 = openai_error_marker ++ rest)
    ∧ (∀ (token : Option String) (chat : Int) e,
        t ≠ "" → t ≠ "/start" → w.openai t = Except.error e →
        (webhook token w (Body.withMessage ⟨some ⟨some chat⟩, some t⟩)).2
          = [Event.completion t,
             Event.send (TELEGRAM_API_URL token ++ "/sendMessage") chat
               (openai_error_marker ++ e)]) := by
  refine ⟨?_, ?_, ?_⟩
  · unfold get_openai_response
    cases h : w.openai t <;> simp [h]
  · intro e he
    exact ⟨e, by simp [get_openai_response, he]⟩
  · intro token chat e hne hns he
    rw [webhook_events]
    simp [webhook_try, lookupChatId, send_telegram_message, get_openai_response,
      hne, hns, he]

/-- Witness for C2: in a run where the completion API raises with message
"boom", the client returns the marker-headed string and the webhook still
sends it. -/
theorem C2_completion_never_raises_witness :
    (get_openai_response failWorld "hi").1 = openai_error_marker ++ "boom"
    ∧ (webhook none failWorld (Body.withMessage ⟨some ⟨some 1⟩, some "hi"⟩)).2
        = [Event.completion "hi",
           Event.send (TELEGRAM_API_URL none ++ "/sendMessage") 1
             (openai_error_marker ++ "boom")] := by
  constructor
  · have h := (C2_completion_never_raises failWorld "hi").1
    simpa [failWorld] using h
  · exact (C2_completion_never_raises failWorld "hi").2.2 none 1 "boom"
      (by decide) (by decide) rfl

/-- C3: every raising step is caught at the top level and turned into a 500
response whose body is ok-false with the exception's message — in
particular a raising send on the normal-text path — and hence every request
is answered with either the ok-true body or the ok-false error shape. -/
theorem C3_top_level_catch (token : Option String) (w : World) (data : Body) :
    ((webhook token w data).1 = { status := 200, body := RespBody.okTrue }
      ∨ ∃ e, (webhook token w data).1
          = { status := 500, body := RespBody.okFalse e })
    ∧ (∀ e, (webhook_try token w data).1 = Except.error e →
        (webhook token w data).1 = { status := 500, body := RespBody.okFalse e })
    ∧ (∀ (chat : Int) (t : String) e,
        data = Body.withMessage ⟨some ⟨some chat⟩, some t⟩ →
        t ≠ "" → t ≠ "/start" →
        w.sendPost (TELEGRAM_API_URL token ++ "/sendMessage") chat
          (get_openai_response w t).1 = Except.error e →
        (webhook token w data).1
          = { status := 500, body := RespBody.okFalse e }) := by
  refine ⟨?_, ?_, ?_⟩
  · unfold webhook
    cases h : (webhook_try token w data).1 with
    | error e => exact Or.inr ⟨e, by simp [h]⟩
    | ok u => exact Or.inl (by simp [h])
  · intro e he
    simp [webhook, he]
  · rintro chat t e rfl hne hns hsend
    simp [webhook, webhook_try, lookupChatId, send_telegram_message, hne, hns, hsend]

/-- Witness for C3: a run whose Telegram send raises with message "netdown"
yields the 500 ok-false response carrying that message. -/
theorem C3_top_level_catch_witness :
    (webhook none sendFailWorld (Body.withMessage ⟨some ⟨some 3⟩, some "hi"⟩)).1
      = { status := 500, body := RespBody.okFalse "netdown" } :=
  (C3_top_level_catch none sendFailWorld
      (Body.withMessage ⟨some ⟨some 3⟩, some "hi"⟩)).2.2 3 "hi" "netdown" rfl
    (by decide) (by decide) rfl

/-- C7: on every control-flow path of the webhook handler at most one
Telegram send is performed. -/
theorem C7_at_most_one_send (token : Option String) (w : World) (data : Body) :
    ((webhook token w data).2.countP Event.isSend) ≤ 1 := by
  rw [webhook_events]
  rcases data with _ | m
  · simp [webhook_try]
  · unfold webhook_try
    cases h : lookupChatId m with
    | error e => simp [h]
    | ok chat_id =>
      by_cases h1 : m.text.getD "" = "/start"
      · simp [h, h1, send_telegram_message, Event.isSend, List.countP_cons]
      · by_cases h2 : m.text.getD "" = ""
        · simp [h, h1, h2, send_telegram_message, Event.isSend, List.countP_cons]
        · simp [h, h1, h2, send_telegram_message, get_openai_response_events,
            Event.isSend, List.countP_cons]

/-- C9: a body that has a message but whose chat-id lookup raises is not
acknowledged with ok-true: the KeyError is caught at the top level, the
response is 500 with ok-false carrying the exception's message, and no
outbound call is made. -/
theorem C9_missing_chat_id (token : Option String) (w : World) (m : MessageObj)
    (e : String) (h : lookupChatId m = Except.error e) :
    webhook token w (Body.withMessage m)
      = ({ status := 500, body := RespBody.okFalse e }, []) := by
  simp [webhook, webhook_try, h]

/-- Witness for C9 at the body with an empty message object, where the
lookup raises a `KeyError` whose message is the quoted key name chat. -/
theorem C9_missing_chat_id_witness :
    webhook none demoWorld (Body.withMessage ⟨none, none⟩)
      = ({ status := 500, body := RespBody.okFalse "\x27chat\x27" }, []) :=
  C9_missing_chat_id none demoWorld ⟨none, none⟩ "\x27chat\x27" rfl

/-- C10: whitespace-only text is not treated as empty: the emptiness test is
string falsiness, so such text goes to the completion client and the send
carries the client's result, not the fixed prompt branch. -/
theorem C10_whitespace_only_text (token : Option String) (w : World)
    (chat : Int) (s : String) (hne : s ≠ "")
    (hws : ∀ c ∈ s.data, c.isWhitespace) :
    (webhook token w (Body.withMessage ⟨some ⟨some chat⟩, some s⟩)).2
      = [Event.completion s,
         Event.send (TELEGRAM_API_URL token ++ "/sendMessage") chat
           (get_openai_response w s).1] := by
  have hns : s ≠ "/start" := by
    intro heq
    have h1 : ('/' : Char) ∈ s.data := by rw [heq]; decide
    exact absurd (hws '/' h1) (by decide)
  rw [webhook_events]
  simp [webhook_try, lookupChatId, send_telegram_message, hne, hns,
    get_openai_response_events]

/-- Witness for C10 at the single-space text. -/
theorem C10_whitespace_only_text_witness :
    (webhook none demoWorld (Body.withMessage ⟨some ⟨some 9⟩, some " "⟩)).2
      = [Event.completion " ",
         Event.send (TELEGRAM_API_URL none ++ "/sendMessage") 9
           (get_openai_response demoWorld " ").1] :=
  C10_whitespace_only_text none demoWorld 9 " " (by decide) (by decide)

/-- C8: the webhook path does not read the bot token except to build the
send URL: in any two runs that differ only in the configured token, with the
send transport's outcome not depending on the URL (all else equal), the
response and the delivered payloads (chat id and text of every outbound
call) are identical; only the admin endpoints degrade — with the token
absent they fail fast with the 500 HTTPException and make no call, while
with a token configured `/set-webhook` performs its post. -/
theorem C8_token_absence_webhook (token : Option String) (w : World)
    (data : Body) (h : ∀ u u' c s, w.sendPost u c s = w.sendPost u' c s) :
    ((webhook token w data).1 = (webhook none w data).1
      ∧ (webhook token w data).2.map Event.payload
          = (webhook none w data).2.map Event.payload)
    ∧ (∀ u, set_webhook none w u
          = (AdminOutcome.httpException 500 token_missing_detail, []))
    ∧ get_webhook_info none w
        = (AdminOutcome.httpException 500 token_missing_detail, [])
    ∧ (∀ t u, t ≠ "" →
        (set_webhook (some t) w u).2
          = [Event.adminPost (TELEGRAM_API_URL (some t) ++ "/setWebhook") u]) := by
  refine ⟨?_, ?_, ?_, ?_⟩
  · rcases data with _ | m
    · exact ⟨rfl, rfl⟩
    · cases hl : lookupChatId m with
      | error e =>
        exact ⟨by simp [webhook, webhook_try, hl],
               by rw [webhook_events, webhook_events]; simp [webhook_try, hl]⟩
      | ok chat_id =>
        have hs : ∀ s, w.sendPost (TELEGRAM_API_URL token ++ "/sendMessage") chat_id s
            = w.sendPost (TELEGRAM_API_URL none ++ "/sendMessage") chat_id s :=
          fun s => h _ _ chat_id s
        by_cases h1 : m.text.getD "" = "/start"
        · refine ⟨?_, ?_⟩
          · simp [webhook, webhook_try, hl, h1, send_telegram_message, hs]
            cases w.sendPost (TELEGRAM_API_URL none ++ "/sendMessage") chat_id
              welcome_message <;> rfl
          · rw [webhook_events, webhook_events]
            simp [webhook_try, hl, h1, send_telegram_message, Event.payload]
        · by_cases h2 : m.text.getD "" = ""
          · refine ⟨?_, ?_⟩
            · simp [webhook, webhook_try, hl, h1, h2, send_telegram_message, hs]
              cases w.sendPost (TELEGRAM_API_URL none ++ "/sendMessage") chat_id
                please_send_text_message <;> rfl
            · rw [webhook_events, webhook_events]
              simp [webhook_try, hl, h1, h2, send_telegram_message, Event.payload]
          · refine ⟨?_, ?_⟩
            · simp [webhook, webhook_try, hl, h1, h2, send_telegram_message, hs]
              cases w.sendPost (TELEGRAM_API_URL none ++ "/sendMessage") chat_id
                (get_openai_response w (m.text.getD "")).1 <;> rfl
            · rw [webhook_events, webhook_events]
              simp [webhook_try, hl, h1, h2, send_telegram_message,
                get_openai_response_events, Event.payload]
  · intro u
    simp [set_webhook, token_is_falsy]
  · simp [get_webhook_info, token_is_falsy]
  · intro t u ht
    cases hr : w.adminPost (TELEGRAM_API_URL (some t) ++ "/setWebhook") u <;>
      simp [set_webhook, token_is_falsy, ht, hr]

/-- Witness for C8: with a URL-insensitive transport, the response to a
normal text message is the same with token "TKN" and with no token. -/
theorem C8_token_absence_webhook_witness :
    (webhook (some "TKN") demoWorld
        (Body.withMessage ⟨some ⟨some 5⟩, some "hi"⟩)).1
      = (webhook none demoWorld
          (Body.withMessage ⟨some ⟨some 5⟩, some "hi"⟩)).1 :=
  (C8_token_absence_webhook (some "TKN") demoWorld
      (Body.withMessage ⟨some ⟨some 5⟩, some "hi"⟩)
      (fun _ _ _ _ => rfl)).1.1
